import Mathlib

/-
Verification development for the openvr-tracker repository.

This file gives a shallow embedding, in Lean 4, of the core logic of the
repository (src/main.rs, src/multicast.rs, src/openvr_adaptor.rs,
src/tracking_messages.rs) and proves or refutes the frozen claims about it.

Modelling conventions:
* `f32` values are idealised as real numbers (`ℝ`); `f32::sqrt` becomes
  `Real.sqrt` and `f32::copysign` an explicit sign transfer on `ℝ`.
* The `HashMap<usize, VrDevice>` registry is modelled as an association
  list with unique keys; `entry(..).or_insert_with(..)` becomes an explicit
  lookup-or-default step followed by a keyed store.
* Fallible socket calls and the UDP send are modelled by explicit
  environments recording which call fails; a Rust `assert!` failure is a
  distinct `panicked` outcome, different from an `Err` return.
* The infinite poll loop of `main` is run on a finite list of per-cycle
  environments (the list plays the role of fuel); the `?` operator on the
  send result is modelled by stopping the recursion with an error value.
-/

namespace OpenVRTracker

/-- The `openvr::TrackedDeviceClass` enum of the openvr crate. -/
inductive TrackedDeviceClass where
  | Invalid
  | HMD
  | Controller
  | GenericTracker
  | TrackingReference
  | DisplayRedirect
deriving DecidableEq, Fintype

/-- The `openvr::TrackedControllerRole` enum of the openvr crate. -/
inductive TrackedControllerRole where
  | LeftHand
  | RightHand
deriving DecidableEq, Fintype

/-- A 3x4 row-major pose matrix, the Rust type `[[f32; 4]; 3]`, with entry
`m[r][c]` written `mrc`. -/
structure Mat34 where
  m00 : ℝ
  m01 : ℝ
  m02 : ℝ
  m03 : ℝ
  m10 : ℝ
  m11 : ℝ
  m12 : ℝ
  m13 : ℝ
  m20 : ℝ
  m21 : ℝ
  m22 : ℝ
  m23 : ℝ

/-- The model of `nalgebra::Point3<f32>`; `Point3::new(x, y, z)` is `⟨x, y, z⟩`. -/
structure Point3 where
  x : ℝ
  y : ℝ
  z : ℝ

/-- The model of a quaternion with scalar part `w`;
`nalgebra::Quaternion::new(w, i, j, k)` is `⟨w, i, j, k⟩`. -/
structure Quat where
  w : ℝ
  x : ℝ
  y : ℝ
  z : ℝ

/-- `nalgebra::UnitQuaternion::identity()`. -/
def Quat.identity : Quat := ⟨1, 0, 0, 0⟩

/-- `f32::copysign(a, b)`: the magnitude of `a` with the sign of `b`
(a non-negative zero counts as positive). -/
noncomputable def copysign (a b : ℝ) : ℝ := if b < 0 then -|a| else |a|

/-- `OpenVRPose::to_position` for `[[f32; 4]; 3]` (src/openvr_adaptor.rs):
reads `x = m[0][3]`, `y = m[1][3]`, `z = m[2][3]` and returns
`Point3::new(z, x, y)`. -/
def to_position (m : Mat34) : Point3 :=
  Point3.mk m.m23 m.m03 m.m13

/-- `nalgebra::UnitQuaternion::from_quaternion`: normalizes the quaternion. -/
noncomputable def fromQuaternion (q : Quat) : Quat :=
  let n := Real.sqrt (q.w ^ 2 + q.x ^ 2 + q.y ^ 2 + q.z ^ 2)
  ⟨q.w / n, q.x / n, q.y / n, q.z / n⟩

/-- `OpenVRPose::to_rotation` for `[[f32; 4]; 3]` (src/openvr_adaptor.rs):
trace-based extraction of `w i j k`, sign correction by `copysign`, then
`UnitQuaternion::from_quaternion(Quaternion::new(w, k, i, j))`. -/
noncomputable def to_rotation (m : Mat34) : Quat :=
  let w := Real.sqrt (max 0 (1 + m.m00 + m.m11 + m.m22)) / 2
  let i := Real.sqrt (max 0 (1 + m.m00 - m.m11 - m.m22)) / 2
  let j := Real.sqrt (max 0 (1 - m.m00 + m.m11 - m.m22)) / 2
  let k := Real.sqrt (max 0 (1 - m.m00 - m.m11 + m.m22)) / 2
  let i2 := copysign i (m.m21 - m.m12)
  let j2 := copysign j (m.m02 - m.m20)
  let k2 := copysign k (m.m10 - m.m01)
  fromQuaternion ⟨w, k2, i2, j2⟩

/-- Spec-side reading of `to_position` (§4.1 of the spec): the translation
column `(m[0][3], m[1][3], m[2][3])`, axis order preserved. -/
def claimPosition (m : Mat34) : Point3 :=
  Point3.mk m.m03 m.m13 m.m23

/-- Spec-side scalar component: `w = sqrt(max(0, 1+m00+m11+m22))/2`. -/
noncomputable def specQuatW (m : Mat34) : ℝ :=
  Real.sqrt (max 0 (1 + m.m00 + m.m11 + m.m22)) / 2

/-- Spec-side first imaginary component, sign-corrected against `m21-m12`. -/
noncomputable def specQuatI (m : Mat34) : ℝ :=
  copysign (Real.sqrt (max 0 (1 + m.m00 - m.m11 - m.m22)) / 2) (m.m21 - m.m12)

/-- Spec-side second imaginary component, sign-corrected against `m02-m20`. -/
noncomputable def specQuatJ (m : Mat34) : ℝ :=
  copysign (Real.sqrt (max 0 (1 - m.m00 + m.m11 - m.m22)) / 2) (m.m02 - m.m20)

/-- Spec-side third imaginary component, sign-corrected against `m10-m01`. -/
noncomputable def specQuatK (m : Mat34) : ℝ :=
  copysign (Real.sqrt (max 0 (1 - m.m00 - m.m11 + m.m22)) / 2) (m.m10 - m.m01)

/-- Spec-side reading of `to_rotation` per the claim: the extracted
components returned directly as the `(w, x, y, z)` of the quaternion. -/
noncomputable def claimRotation (m : Mat34) : Quat :=
  ⟨specQuatW m, specQuatI m, specQuatJ m, specQuatK m⟩

/-- The matrix of the repository's own `test_matrix_layout` test:
rows `[0,1,2,3]`, `[4,5,6,7]`, `[8,9,10,11]`. -/
def testMatrix : Mat34 := ⟨0, 1, 2, 3, 4, 5, 6, 7, 8, 9, 10, 11⟩

/-- The all-zero pose matrix. -/
def zeroMat : Mat34 := ⟨0, 0, 0, 0, 0, 0, 0, 0, 0, 0, 0, 0⟩

/-- The pose matrix with rotation part `diag(1, -1, -1)` (a half turn about
the first axis) and zero translation. -/
def diagMat : Mat34 := ⟨1, 0, 0, 0, 0, -1, 0, 0, 0, 0, -1, 0⟩

end OpenVRTracker

namespace OpenVRTracker.OpenvrAdaptor

/-- The `VrDeviceClass` enum of src/openvr_adaptor.rs. -/
inductive VrDeviceClass where
  | Controller
  | LeftController
  | RightController
  | Tracker
  | HMD
  | Sensor
  | Other
deriving DecidableEq, Fintype

/-- `VrDeviceClass::from_openvr_types` of src/openvr_adaptor.rs. -/
def VrDeviceClass.from_openvr_types (device_class : TrackedDeviceClass)
    (controller : Option TrackedControllerRole) : VrDeviceClass :=
  match device_class with
  | .HMD => .HMD
  | .Controller =>
    match controller with
    | some .LeftHand => .LeftController
    | some .RightHand => .RightController
    | none => .Controller
  | .GenericTracker => .Tracker
  | .TrackingReference => .Sensor
  | _ => .Other

end OpenVRTracker.OpenvrAdaptor

namespace OpenVRTracker.TrackingMessages

/-- The `VrDeviceClass` enum of src/tracking_messages.rs (a duplicate of the
one in src/openvr_adaptor.rs). -/
inductive VrDeviceClass where
  | Controller
  | LeftController
  | RightController
  | Tracker
  | HMD
  | Sensor
  | Other
deriving DecidableEq, Fintype

/-- `VrDeviceClass::from_openvr_types` of src/tracking_messages.rs. -/
def VrDeviceClass.from_openvr_types (device_class : TrackedDeviceClass)
    (controller : Option TrackedControllerRole) : VrDeviceClass :=
  match device_class with
  | .HMD => .HMD
  | .Controller =>
    match controller with
    | some .LeftHand => .LeftController
    | some .RightHand => .RightController
    | none => .Controller
  | .GenericTracker => .Tracker
  | .TrackingReference => .Sensor
  | _ => .Other

end OpenVRTracker.TrackingMessages

namespace OpenVRTracker

/-- The evident constructor-wise correspondence between the two duplicated
`VrDeviceClass` enums. -/
def classToTM : OpenvrAdaptor.VrDeviceClass → TrackingMessages.VrDeviceClass
  | .Controller => .Controller
  | .LeftController => .LeftController
  | .RightController => .RightController
  | .Tracker => .Tracker
  | .HMD => .HMD
  | .Sensor => .Sensor
  | .Other => .Other

/-- Spec-side classifier, written from the mapping table of §4.2 of the
spec: HMD → HMD; (Controller, LeftHand) → LeftController;
(Controller, RightHand) → RightController; (Controller, none) → Controller;
GenericTracker → Tracker; TrackingReference → Sensor; anything else → Other. -/
def specClassify (device_class : TrackedDeviceClass)
    (controller : Option TrackedControllerRole) : OpenvrAdaptor.VrDeviceClass :=
  match device_class, controller with
  | .HMD, _ => .HMD
  | .Controller, some .LeftHand => .LeftController
  | .Controller, some .RightHand => .RightController
  | .Controller, none => .Controller
  | .GenericTracker, _ => .Tracker
  | .TrackingReference, _ => .Sensor
  | _, _ => .Other

end OpenVRTracker

namespace OpenVRTracker.OpenvrAdaptor

/-- The `VrDevice` struct of src/openvr_adaptor.rs (this variant has no
`seen` field; the Rust field `class` is rendered `deviceClass`, matching the
getter `device_class`). -/
structure VrDevice where
  id : Nat
  tracked : Bool
  position : Point3
  rotation : Quat
  deviceClass : VrDeviceClass

/-- `VrDevice::new` of src/openvr_adaptor.rs. -/
def VrDevice.new (id : Nat) : VrDevice :=
  { id := id
    tracked := false
    position := Point3.mk 0 0 0
    rotation := Quat.identity
    deviceClass := .Other }

/-- `VrDevice::update` of src/openvr_adaptor.rs: overwrites `tracked`,
`position`, `rotation` and `class` unconditionally. -/
noncomputable def VrDevice.update (d : VrDevice) (tracked : Bool) (pose : Mat34)
    (cls : VrDeviceClass) : VrDevice :=
  { d with
    tracked := tracked
    position := to_position pose
    rotation := to_rotation pose
    deviceClass := cls }

/-- The registry state of `VrDeviceManager`: its `HashMap<usize, VrDevice>`
modelled as an association list with unique keys. -/
abbrev Registry := List (Nat × VrDevice)

/-- `HashMap` lookup: the value stored at key `k`, if any. -/
def findDevice : Registry → Nat → Option VrDevice
  | [], _ => none
  | p :: rest, k => if p.1 = k then some p.2 else findDevice rest k

/-- `HashMap` keyed store: replaces the value at key `k` if present,
otherwise appends a fresh entry. -/
def setDevice : Registry → Nat → VrDevice → Registry
  | [], k, d => [(k, d)]
  | p :: rest, k, d => if p.1 = k then (k, d) :: rest else p :: setDevice rest k d

/-- `self.devices.entry(index).or_insert_with(|| VrDevice::new(index))`:
the existing device at the slot, or a freshly created default one. -/
def entryOrInsert (devices : Registry) (k : Nat) : VrDevice :=
  match findDevice devices k with
  | some d => d
  | none => VrDevice.new k

/-- The per-slot raw data the manager reads from the OpenVR system in one
poll: the connected flag, the pose matrix, the device class and the
optional controller role. -/
structure FrameEntry where
  tracked : Bool
  pose : Mat34
  deviceClass : TrackedDeviceClass
  role : Option TrackedControllerRole

/-- One iteration of the loop body of `VrDeviceManager::update` at slot
`index`: look up or lazily create the device, classify, and apply
`VrDevice::update`. -/
noncomputable def ingestEntry (devices : Registry) (index : Nat)
    (e : FrameEntry) : Registry :=
  let device_entry := entryOrInsert devices index
  let cls := VrDeviceClass.from_openvr_types e.deviceClass e.role
  setDevice devices index (device_entry.update e.tracked e.pose cls)

/-- `VrDeviceManager::update`: iterates over the enumerated pose array and
ingests every slot in order. -/
noncomputable def managerUpdate (devices : Registry)
    (poses : List FrameEntry) : Registry :=
  poses.enum.foldl (fun ds ie => ingestEntry ds ie.1 ie.2) devices

/-- The registry reached from the empty initial state by a sequence of
`VrDeviceManager::update` calls, one per polled frame. -/
noncomputable def runFrames (frames : List (List FrameEntry)) : Registry :=
  frames.foldl managerUpdate []

/-- `VrDeviceManager::device_list`: clones the map's values and sorts them
by `id` (Rust `sort_by_key` is a stable merge sort). -/
def device_list (devices : Registry) : List VrDevice :=
  (devices.map Prod.snd).mergeSort (fun a b => a.id ≤ b.id)

end OpenVRTracker.OpenvrAdaptor

namespace OpenVRTracker.TrackingMessages

/-- The `VrDevice` struct of src/tracking_messages.rs (this variant carries
the `seen` latch; the Rust field `class` is rendered `deviceClass`). -/
structure VrDevice where
  id : Nat
  tracked : Bool
  seen : Bool
  position : Point3
  rotation : Quat
  deviceClass : VrDeviceClass

/-- `VrDevice::new` of src/tracking_messages.rs. -/
def VrDevice.new (id : Nat) : VrDevice :=
  { id := id
    tracked := false
    seen := false
    position := Point3.mk 0 0 0
    rotation := Quat.identity
    deviceClass := .Other }

/-- `VrDevice::update` of src/tracking_messages.rs: sets `tracked`, latches
`seen` when `tracked` is set, and overwrites `position`, `rotation` and
`class` unconditionally. -/
noncomputable def VrDevice.update (d : VrDevice) (tracked : Bool) (pose : Mat34)
    (cls : VrDeviceClass) : VrDevice :=
  { d with
    tracked := tracked
    seen := if tracked then true else d.seen
    position := to_position pose
    rotation := to_rotation pose
    deviceClass := cls }

/-- A sequence of `VrDevice::update` calls applied in order, each with its
own `tracked` flag, pose and class. -/
noncomputable def applyUpdates (d : VrDevice)
    (us : List (Bool × Mat34 × VrDeviceClass)) : VrDevice :=
  us.foldl (fun d u => d.update u.1 u.2.1 u.2.2) d

end OpenVRTracker.TrackingMessages

namespace OpenVRTracker.Multicast

/-- An IPv4 address as four octets. -/
structure Ipv4Addr where
  a : Nat
  b : Nat
  c : Nat
  d : Nat
deriving DecidableEq

/-- `std::net::Ipv4Addr::is_multicast`: the address lies in
`224.0.0.0/4`, i.e. its first octet is between 224 and 239. -/
def Ipv4Addr.is_multicast (ip : Ipv4Addr) : Bool :=
  decide (224 ≤ ip.a) && decide (ip.a ≤ 239)

/-- `std::net::SocketAddrV4`: an IPv4 address and a port. -/
structure SocketAddrV4 where
  ip : Ipv4Addr
  port : Nat
deriving DecidableEq

/-- An opaque operating-system error from a socket call. -/
inductive SocketErr where
  | os
deriving DecidableEq

/-- The environment of `bind_multicast`: for each fallible socket call, in
source order, whether it fails and with what error. -/
structure SocketEnv where
  socket_new : Option SocketErr
  set_reuse_address : Option SocketErr
  set_nonblocking : Option SocketErr
  bind : Option SocketErr
  set_multicast_loop_v4 : Option SocketErr
  join_multicast_v4 : Option SocketErr
deriving DecidableEq

/-- The environment in which every socket call succeeds. -/
def allOk : SocketEnv := ⟨none, none, none, none, none, none⟩

/-- Outcome of running `bind_multicast`: a panic from the `assert!`, an
`Err` propagated by `?`, or a successfully bound socket. -/
inductive BindOutcome where
  | panicked
  | err (e : SocketErr)
  | ok
deriving DecidableEq

/-- `bind_multicast` of src/multicast.rs: `assert!` that the destination is
multicast (a failure is a panic, not an `Err`), then the six socket calls in
order, each `?`-propagating its error. -/
def bind_multicast (_addr multi_addr : SocketAddrV4) (env : SocketEnv) :
    BindOutcome :=
  if ¬ multi_addr.ip.is_multicast then .panicked
  else
    match env.socket_new with
    | some e => .err e
    | none =>
      match env.set_reuse_address with
      | some e => .err e
      | none =>
        match env.set_nonblocking with
        | some e => .err e
        | none =>
          match env.bind with
          | some e => .err e
          | none =>
            match env.set_multicast_loop_v4 with
            | some e => .err e
            | none =>
              match env.join_multicast_v4 with
              | some e => .err e
              | none => .ok

/-- The `MessageSender` struct of src/multicast.rs (the socket itself is
not modelled as a value). -/
structure MessageSender where
  multicast_address : SocketAddrV4
deriving DecidableEq

/-- Outcome of `MessageSender::new`: a panic, an `Err` result, or the
constructed sender. -/
inductive ConstructOutcome where
  | panicked
  | err (e : SocketErr)
  | ok (sender : MessageSender)
deriving DecidableEq

/-- `MessageSender::new` of src/multicast.rs: bind on all interfaces at the
destination port, then `bind_multicast` against the destination address. -/
def MessageSender.new (multicast_address : SocketAddrV4) (env : SocketEnv) :
    ConstructOutcome :=
  let addr := SocketAddrV4.mk (Ipv4Addr.mk 0 0 0 0) multicast_address.port
  match bind_multicast addr multicast_address env with
  | .panicked => .panicked
  | .err e => .err e
  | .ok => .ok (MessageSender.mk multicast_address)

end OpenVRTracker.Multicast

namespace OpenVRTracker

/-- A transport error from `MessageSender::send` (e.g. datagram too large,
network unreachable). -/
inductive SendErr where
  | transport
deriving DecidableEq

/-- The per-cycle environment of the poll loop in `main`: the frame the
OpenVR system reports this cycle, and whether the multicast send succeeds. -/
structure CycleEnv where
  frame : List OpenvrAdaptor.FrameEntry
  sendOk : Bool

/-- The poll loop of `main` (src/main.rs), run on a finite list of cycle
environments. Each cycle updates the registry, assembles and sends the
snapshot; a send failure is propagated by `?`, which returns the error from
`main` and ends the loop. The result is the number of cycles begun and the
error `main` returned, if any (`none` when the fuel list is exhausted). -/
noncomputable def runLoop (devices : OpenvrAdaptor.Registry) :
    List CycleEnv → Nat × Option SendErr
  | [] => (0, none)
  | env :: rest =>
    let devices2 := OpenvrAdaptor.managerUpdate devices env.frame
    if env.sendOk then
      let r := runLoop devices2 rest
      (r.1 + 1, r.2)
    else (1, some .transport)

/-- The invariant of the device registry: keys are pairwise distinct and
every stored device's `id` field equals its key. -/
def RegistryInv (devices : OpenvrAdaptor.Registry) : Prop :=
  (devices.map Prod.fst).Nodup ∧ ∀ p ∈ devices, (Prod.snd p).id = p.1

end OpenVRTracker

namespace OpenVRTracker

/-- Helper: the `seen` field after one `update` call. -/
theorem TM_update_seen (d : TrackingMessages.VrDevice) (t : Bool) (m : Mat34)
    (c : TrackingMessages.VrDeviceClass) :
    (d.update t m c).seen = (if t then true else d.seen) := rfl

/-- Helper: `update` never clears an already-set `seen` flag. -/
theorem TM_update_seen_mono (d : TrackingMessages.VrDevice) (t : Bool)
    (m : Mat34) (c : TrackingMessages.VrDeviceClass) (h : d.seen = true) :
    (d.update t m c).seen = true := by
  rw [TM_update_seen]
  cases t <;> simp [h]

/-- Helper: a whole sequence of updates never clears `seen`. -/
theorem TM_applyUpdates_seen_mono
    (us : List (Bool × Mat34 × TrackingMessages.VrDeviceClass)) :
    ∀ d : TrackingMessages.VrDevice, d.seen = true →
      (TrackingMessages.applyUpdates d us).seen = true := by
  induction us with
  | nil => intro d h; exact h
  | cons u rest ih =>
    intro d h
    exact ih _ (TM_update_seen_mono d u.1 u.2.1 u.2.2 h)

/-- C1: the claim that `to_position(m)` returns the translation column
`(m[0][3], m[1][3], m[2][3])` in that axis order fails on the matrix of the
repository's own layout test, whose translation column is `(3, 7, 11)` but
whose computed position is `(11, 3, 7)`. -/
theorem c1_counterexample : to_position testMatrix ≠ claimPosition testMatrix := by
  intro h
  have hx : (to_position testMatrix).x = (claimPosition testMatrix).x := by rw [h]
  have h1 : (to_position testMatrix).x = 11 := rfl
  have h2 : (claimPosition testMatrix).x = 3 := rfl
  rw [h1, h2] at hx
  norm_num at hx

/-- C1 (amended): `to_position(m)` returns the translation column remapped
as `(m[2][3], m[0][3], m[1][3])` — the hardware axes are permuted
`x ↦ y, y ↦ z, z ↦ x` by this primitive itself. -/
theorem c1_amended (m : Mat34) :
    (to_position m).x = m.m23 ∧ (to_position m).y = m.m03 ∧
      (to_position m).z = m.m13 :=
  ⟨rfl, rfl, rfl⟩

/-- C2: the claim that an update with `valid = false` leaves the prior
`position`/`rotation`/`class` unchanged fails: a device classified `HMD` by
a valid update and then updated invalidly with class `Other` ends with
class `Other`, not `HMD`. -/
theorem c2_counterexample :
    (((TrackingMessages.VrDevice.new 0).update true zeroMat .HMD).update
        false zeroMat .Other).deviceClass ≠ .HMD := by
  decide

/-- C2 (amended): an update with `valid = false` sets `tracked = false` and
leaves `seen` and `id` unchanged, but overwrites `position`, `rotation` and
`class` with the values computed from the newly supplied pose and class —
stale data is not preserved. -/
theorem c2_amended (d : TrackingMessages.VrDevice) (m1 m2 : Mat34)
    (c1 c2 : TrackingMessages.VrDeviceClass) :
    ((d.update true m1 c1).update false m2 c2).tracked = false ∧
    ((d.update true m1 c1).update false m2 c2).seen = true ∧
    ((d.update true m1 c1).update false m2 c2).id = d.id ∧
    ((d.update true m1 c1).update false m2 c2).position = to_position m2 ∧
    ((d.update true m1 c1).update false m2 c2).rotation = to_rotation m2 ∧
    ((d.update true m1 c1).update false m2 c2).deviceClass = c2 :=
  ⟨rfl, rfl, rfl, rfl, rfl, rfl⟩

/-- C3: once a device has been updated with `tracked = true`, `seen` stays
true after every subsequent sequence of updates, whatever their `tracked`
values — the `seen` latch is monotonic. -/
theorem c3_seen_latch (d : TrackingMessages.VrDevice) (m : Mat34)
    (c : TrackingMessages.VrDeviceClass)
    (us : List (Bool × Mat34 × TrackingMessages.VrDeviceClass)) :
    (TrackingMessages.applyUpdates (d.update true m c) us).seen = true :=
  TM_applyUpdates_seen_mono us _ rfl

/-- C4: for every device class and optional controller role,
`from_openvr_types` agrees with the seven-row mapping table of the spec
(`specClassify`), so it returns exactly one of the seven categories as
tabulated. -/
theorem c4_classifier_table (dc : TrackedDeviceClass)
    (role : Option TrackedControllerRole) :
    OpenvrAdaptor.VrDeviceClass.from_openvr_types dc role = specClassify dc role := by
  cases dc <;> rcases role with _ | r <;> first | rfl | (cases r <;> rfl)

/-- C5: the claim that a failed broadcast only abandons its own cycle and
the loop proceeds to the next cycle fails: with two queued cycles whose
first send fails, only one cycle runs (the claim would give two). -/
theorem c5_counterexample :
    (runLoop [] [CycleEnv.mk [] false, CycleEnv.mk [] true]).1 = 1 ∧
      (runLoop [] [CycleEnv.mk [] false, CycleEnv.mk [] true]).1 ≠ 2 := by
  constructor
  · rfl
  · intro h
    rw [show (runLoop [] [CycleEnv.mk [] false, CycleEnv.mk [] true]).1 = 1 from rfl] at h
    omega

/-- C5 (amended): a send failure is propagated by `?` out of `main`: the
failing cycle is the last one run and the loop terminates with the
transport error instead of proceeding to the next cycle. -/
theorem c5_amended (devices : OpenvrAdaptor.Registry)
    (frame : List OpenvrAdaptor.FrameEntry) (rest : List CycleEnv) :
    runLoop devices (CycleEnv.mk frame false :: rest) = (1, some .transport) := rfl

/-- Helper: looking up the key just stored finds the stored device. -/
theorem findDevice_setDevice_self (devices : OpenvrAdaptor.Registry) (k : Nat)
    (d : OpenvrAdaptor.VrDevice) :
    OpenvrAdaptor.findDevice (OpenvrAdaptor.setDevice devices k d) k = some d := by
  induction devices with
  | nil => simp [OpenvrAdaptor.setDevice, OpenvrAdaptor.findDevice]
  | cons p rest ih =>
    by_cases h : p.1 = k <;>
      simp [OpenvrAdaptor.setDevice, OpenvrAdaptor.findDevice, h, ih]

/-- C8: ingesting a slot that is not yet in the registry lazily creates its
entry from `VrDevice::new`, whose pre-observation defaults are
`tracked = false`, zero position, identity rotation, class `Other` and
`id` equal to the slot index (`seen = false` in the variant carrying the
latch); the ingested entry is that default device passed through `update`. -/
theorem c8_defaults (devices : OpenvrAdaptor.Registry) (k : Nat)
    (e : OpenvrAdaptor.FrameEntry)
    (h : OpenvrAdaptor.findDevice devices k = none) :
    OpenvrAdaptor.entryOrInsert devices k = OpenvrAdaptor.VrDevice.new k ∧
    (OpenvrAdaptor.VrDevice.new k).tracked = false ∧
    (OpenvrAdaptor.VrDevice.new k).position = Point3.mk 0 0 0 ∧
    (OpenvrAdaptor.VrDevice.new k).rotation = Quat.identity ∧
    (OpenvrAdaptor.VrDevice.new k).deviceClass = .Other ∧
    (OpenvrAdaptor.VrDevice.new k).id = k ∧
    (TrackingMessages.VrDevice.new k).seen = false ∧
    (TrackingMessages.VrDevice.new k).tracked = false ∧
    OpenvrAdaptor.findDevice (OpenvrAdaptor.ingestEntry devices k e) k =
      some ((OpenvrAdaptor.VrDevice.new k).update e.tracked e.pose
        (OpenvrAdaptor.VrDeviceClass.from_openvr_types e.deviceClass e.role)) := by
  have hoi : OpenvrAdaptor.entryOrInsert devices k = OpenvrAdaptor.VrDevice.new k := by
    unfold OpenvrAdaptor.entryOrInsert
    rw [h]
  refine ⟨hoi, rfl, rfl, rfl, rfl, rfl, rfl, rfl, ?_⟩
  unfold OpenvrAdaptor.ingestEntry
  rw [hoi]
  exact findDevice_setDevice_self devices k _

/-- Witness for C8 at the empty registry, slot 0 and a concrete frame
entry. -/
theorem c8_witness :
    OpenvrAdaptor.findDevice [] 0 = none ∧
    (OpenvrAdaptor.entryOrInsert [] 0 = OpenvrAdaptor.VrDevice.new 0 ∧
    (OpenvrAdaptor.VrDevice.new 0).tracked = false ∧
    (OpenvrAdaptor.VrDevice.new 0).position = Point3.mk 0 0 0 ∧
    (OpenvrAdaptor.VrDevice.new 0).rotation = Quat.identity ∧
    (OpenvrAdaptor.VrDevice.new 0).deviceClass = .Other ∧
    (OpenvrAdaptor.VrDevice.new 0).id = 0 ∧
    (TrackingMessages.VrDevice.new 0).seen = false ∧
    (TrackingMessages.VrDevice.new 0).tracked = false ∧
    OpenvrAdaptor.findDevice
        (OpenvrAdaptor.ingestEntry [] 0
          (OpenvrAdaptor.FrameEntry.mk false zeroMat .Invalid none)) 0 =
      some ((OpenvrAdaptor.VrDevice.new 0).update false zeroMat
        (OpenvrAdaptor.VrDeviceClass.from_openvr_types .Invalid none))) :=
  ⟨rfl, c8_defaults [] 0 (OpenvrAdaptor.FrameEntry.mk false zeroMat .Invalid none) rfl⟩

/-- C9: the claim that constructing the publisher with a non-multicast
destination fails with an error result returned to the caller fails: with
the unicast address 127.0.0.1:7070 the `assert!` in `bind_multicast`
panics, which is a different failure mode from an `Err` result. -/
theorem c9_counterexample :
    Multicast.MessageSender.new
        (Multicast.SocketAddrV4.mk (Multicast.Ipv4Addr.mk 127 0 0 1) 7070)
        Multicast.allOk = .panicked ∧
    Multicast.MessageSender.new
        (Multicast.SocketAddrV4.mk (Multicast.Ipv4Addr.mk 127 0 0 1) 7070)
        Multicast.allOk ≠ .err .os := by
  decide

/-- C9 (amended): for every destination address that is not a valid
multicast address, construction of the publisher panics via the `assert!`
in `bind_multicast` (process abort), not an error result; error results are
reserved for failing socket calls on multicast addresses. -/
theorem c9_amended (multicast_address : Multicast.SocketAddrV4)
    (env : Multicast.SocketEnv)
    (h : multicast_address.ip.is_multicast = false) :
    Multicast.MessageSender.new multicast_address env = .panicked := by
  unfold Multicast.MessageSender.new Multicast.bind_multicast
  rw [h]
  simp

/-- Witness for C9 (amended) at the loopback address 127.0.0.1:7070. -/
theorem c9_witness :
    (Multicast.Ipv4Addr.mk 127 0 0 1).is_multicast = false ∧
    Multicast.MessageSender.new
        (Multicast.SocketAddrV4.mk (Multicast.Ipv4Addr.mk 127 0 0 1) 7070)
        Multicast.allOk = .panicked :=
  ⟨by decide,
   c9_amended (Multicast.SocketAddrV4.mk (Multicast.Ipv4Addr.mk 127 0 0 1) 7070)
     Multicast.allOk (by decide)⟩

/-- Helper: the square root of four. -/
theorem sqrt_four : Real.sqrt 4 = 2 := by
  rw [show (4:ℝ) = 2 ^ 2 by norm_num, Real.sqrt_sq (by norm_num : (0:ℝ) ≤ 2)]

/-- C7: the claim that the extracted quaternion components are returned as
the `(w, x, y, z)` of the quaternion fails on the half-turn matrix
`diag(1,-1,-1)`: the extraction gives `(w,i,j,k) = (0,1,0,0)`, but the code
passes them to `Quaternion::new` in the order `(w, k, i, j)`, producing
`(0, 0, 1, 0)`. -/
theorem c7_counterexample : to_rotation diagMat ≠ claimRotation diagMat := by
  intro h
  have hx : (to_rotation diagMat).x = (claimRotation diagMat).x := by rw [h]
  have h1 : (to_rotation diagMat).x = 0 := by
    unfold to_rotation diagMat fromQuaternion copysign
    norm_num
  have h2 : (claimRotation diagMat).x = 1 := by
    rw [show (claimRotation diagMat).x = specQuatI diagMat from rfl]
    unfold specQuatI diagMat copysign
    norm_num
    rw [sqrt_four]
    norm_num
  rw [h1, h2] at hx
  norm_num at hx

/-- C7 (amended): `to_rotation(m)` computes the four components exactly by
the stated trace-based, `copysign`-corrected extraction, but assembles them
into the quaternion in the permuted order `(w, k, i, j)` as `(w, x, y, z)`
(the same axis remapping as `to_position`), and the result is normalized by
`UnitQuaternion::from_quaternion`. -/
theorem c7_amended (m : Mat34) :
    to_rotation m =
      fromQuaternion (Quat.mk (specQuatW m) (specQuatK m) (specQuatI m) (specQuatJ m)) := rfl

/-- C10: the two duplicated classifiers (src/openvr_adaptor.rs and
src/tracking_messages.rs) are extensionally equal, up to the evident
constructor correspondence between the two duplicated category enums. -/
theorem c10_classifier_equiv (dc : TrackedDeviceClass)
    (role : Option TrackedControllerRole) :
    classToTM (OpenvrAdaptor.VrDeviceClass.from_openvr_types dc role) =
      TrackingMessages.VrDeviceClass.from_openvr_types dc role := by
  cases dc <;> rcases role with _ | r <;> first | rfl | (cases r <;> rfl)

end OpenVRTracker

namespace OpenVRTracker

open OpenvrAdaptor

/-- Helper: under the id-invariant, a found device's `id` equals the key. -/
theorem findDevice_id (devices : Registry) (k : Nat) (d : VrDevice)
    (hfind : findDevice devices k = some d)
    (hinv : ∀ p ∈ devices, (Prod.snd p).id = p.1) : d.id = k := by
  induction devices with
  | nil => simp [findDevice] at hfind
  | cons p rest ih =>
    rw [findDevice] at hfind
    by_cases h : p.1 = k
    · rw [if_pos h] at hfind
      have hp := hinv p (List.mem_cons_self p rest)
      cases hfind
      omega
    · rw [if_neg h] at hfind
      exact ih hfind (fun q hq => hinv q (List.mem_cons_of_mem _ hq))

/-- Helper: storing at key `k` keeps the key list, appending `k` if fresh. -/
theorem keys_setDevice (devices : Registry) (k : Nat) (d : VrDevice) :
    (setDevice devices k d).map Prod.fst =
      if k ∈ devices.map Prod.fst then devices.map Prod.fst
      else devices.map Prod.fst ++ [k] := by
  induction devices with
  | nil => simp [setDevice]
  | cons p rest ih =>
    by_cases h : p.1 = k
    · simp [setDevice, h]
    · have hk : ¬ (k = p.1) := fun hh => h hh.symm
      simp only [setDevice, if_neg h, List.map_cons, ih, List.mem_cons]
      by_cases hmem : k ∈ rest.map Prod.fst
      · simp [hmem, hk]
      · simp [hmem, hk]

/-- Helper: every entry of the updated registry is the stored pair or an old entry. -/
theorem mem_setDevice (devices : Registry) (k : Nat) (d : VrDevice) :
    ∀ q ∈ setDevice devices k d, q = (k, d) ∨ q ∈ devices := by
  induction devices with
  | nil => intro q hq; simp [setDevice] at hq; left; exact hq
  | cons p rest ih =>
    intro q hq
    by_cases h : p.1 = k
    · rw [setDevice, if_pos h] at hq
      rcases List.mem_cons.mp hq with h1 | h2
      · left; exact h1
      · right; exact List.mem_cons_of_mem _ h2
    · rw [setDevice, if_neg h] at hq
      rcases List.mem_cons.mp hq with h1 | h2
      · right; rw [h1]; exact List.mem_cons_self p rest
      · rcases ih q h2 with h3 | h4
        · left; exact h3
        · right; exact List.mem_cons_of_mem _ h4

/-- Helper: a keyed store with a matching `id` preserves the registry invariant. -/
theorem inv_setDevice (devices : Registry) (k : Nat) (d : VrDevice)
    (hinv : RegistryInv devices) (hd : d.id = k) :
    RegistryInv (setDevice devices k d) := by
  constructor
  · rw [keys_setDevice]
    by_cases hmem : k ∈ devices.map Prod.fst
    · rw [if_pos hmem]; exact hinv.1
    · rw [if_neg hmem]
      simp [List.nodup_append, hinv.1, hmem]
  · intro q hq
    rcases mem_setDevice devices k d q hq with h1 | h2
    · rw [h1]; exact hd
    · exact hinv.2 q h2

/-- Helper: the looked-up-or-created device carries the slot index as its `id`. -/
theorem entryOrInsert_id (devices : Registry) (k : Nat)
    (hinv : ∀ p ∈ devices, (Prod.snd p).id = p.1) :
    (entryOrInsert devices k).id = k := by
  unfold entryOrInsert
  cases hfind : findDevice devices k with
  | some d => exact findDevice_id devices k d hfind hinv
  | none => rfl

/-- Helper: ingesting one slot preserves the registry invariant. -/
theorem inv_ingestEntry (devices : Registry) (k : Nat) (e : FrameEntry)
    (hinv : RegistryInv devices) : RegistryInv (ingestEntry devices k e) := by
  unfold ingestEntry
  exact inv_setDevice devices k _ hinv (entryOrInsert_id devices k hinv.2)

/-- Helper: folding the per-slot ingest over any index list preserves the invariant. -/
theorem inv_foldlIngest (l : List (Nat × FrameEntry)) :
    ∀ devices : Registry, RegistryInv devices →
      RegistryInv (l.foldl (fun ds ie => ingestEntry ds ie.1 ie.2) devices) := by
  induction l with
  | nil => intro devices hinv; exact hinv
  | cons ie rest ih =>
    intro devices hinv
    exact ih _ (inv_ingestEntry devices ie.1 ie.2 hinv)

/-- Helper: a whole `VrDeviceManager::update` call preserves the invariant. -/
theorem inv_managerUpdate (devices : Registry) (poses : List FrameEntry)
    (hinv : RegistryInv devices) : RegistryInv (managerUpdate devices poses) :=
  inv_foldlIngest poses.enum devices hinv

/-- Helper: the empty initial registry satisfies the invariant. -/
theorem inv_empty : RegistryInv [] := ⟨List.nodup_nil, by intro p hp; simp at hp⟩

/-- Helper: every registry state reachable by polling satisfies the invariant. -/
theorem inv_runFrames (frames : List (List FrameEntry)) :
    RegistryInv (runFrames frames) := by
  unfold runFrames
  have aux : ∀ fs : List (List FrameEntry), ∀ devices : Registry,
      RegistryInv devices → RegistryInv (fs.foldl managerUpdate devices) := by
    intro fs
    induction fs with
    | nil => intro devices hinv; exact hinv
    | cons f rest ih => intro devices hinv; exact ih _ (inv_managerUpdate devices f hinv)
  exact aux frames [] inv_empty

/-- Helper: under the invariant, `device_list` is strictly ascending in `id`. -/
theorem device_list_sorted_of_inv (devices : Registry)
    (hinv : RegistryInv devices) :
    List.Sorted (· < ·) ((device_list devices).map VrDevice.id) := by
  have hpair : List.Pairwise (fun a b : VrDevice => a.id ≤ b.id) (device_list devices) := by
    have hs := @List.sorted_mergeSort VrDevice
      (fun a b : VrDevice => decide (a.id ≤ b.id))
      (by intro a b c hab hbc; simp at hab hbc ⊢; omega)
      (by intro a b; simp; omega)
      (devices.map Prod.snd)
    refine List.Pairwise.imp ?_ hs
    intro a b hab
    simpa using hab
  have hperm : (device_list devices).Perm (devices.map Prod.snd) :=
    List.mergeSort_perm _ _
  have hnodup : ((device_list devices).map VrDevice.id).Nodup := by
    have hperm2 : ((device_list devices).map VrDevice.id).Perm
        ((devices.map Prod.snd).map VrDevice.id) := hperm.map _
    have heq : (devices.map Prod.snd).map VrDevice.id = devices.map Prod.fst := by
      rw [List.map_map]
      exact List.map_congr_left hinv.2
    rw [hperm2.nodup_iff, heq]
    exact hinv.1
  have hsorted : List.Sorted (· ≤ ·) ((device_list devices).map VrDevice.id) :=
    List.pairwise_map.mpr hpair
  exact hsorted.lt_of_le hnodup

/-- C6: for every registry state reachable by any sequence of ingest
calls, `device_list` returns the device records sorted in strictly
ascending order of their `id` field. -/
theorem c6_snapshot_sorted (frames : List (List FrameEntry)) :
    List.Sorted (· < ·) ((device_list (runFrames frames)).map VrDevice.id) :=
  device_list_sorted_of_inv _ (inv_runFrames frames)

end OpenVRTracker
